import Mathlib

/-!
Verification of the data-preparation and query layer of the FitBit
exploration dashboard (`streamlit_app.py`).

Modelling conventions:
* A pandas `Timestamp` is a `Nat` counting minutes since an epoch;
  `dateOf` (integer division by 1440) models `.dt.date`, and a plain
  calendar date `d` corresponds to the midnight timestamp `d * 1440`
  (what `pd.to_datetime(date)` produces for a date).
* Numeric values are `ℚ`; a pandas float column that may hold `NaN`
  (missing data) is modelled by `PFloat` with a distinguished `nan`.
* A DataFrame is a `List` of row structures, in frame order.
* `pd.to_datetime` with its default `errors="raise"` is modelled by a
  string parser returning `Option`, lifted to `Except LoadError` over
  whole columns: one unparseable value fails the entire load.
-/

deriving instance DecidableEq for Except

namespace EDA

/-- Minutes per day: the granularity of our timestamp model. -/
def minutesPerDay : Nat := 1440

/-- Date portion of a timestamp (models `.dt.date`). -/
def dateOf (ts : Nat) : Nat := ts / minutesPerDay

/-- Midnight timestamp of a calendar date (models `pd.to_datetime(date)`). -/
def midnight (d : Nat) : Nat := d * minutesPerDay

/-- Split a character list on a separator character (the relevant core
of `String.splitOn`). -/
def splitOnChar (sep : Char) : List Char → List (List Char)
  | [] => [[]]
  | c :: rest =>
    let r := splitOnChar sep rest
    if c = sep then [] :: r
    else
      match r with
      | [] => [[c]]
      | g :: gs => (c :: g) :: gs

/-- Read a nonempty all-digit character list as a natural number. -/
def digitsToNat? (cs : List Char) : Option Nat :=
  if cs.isEmpty then none
  else
    cs.foldl (fun acc c =>
      match acc with
      | none => none
      | some n => if c.isDigit then some (n * 10 + (c.toNat - 48)) else none)
      (some 0)

/-- Parse a `M/D/YYYY` date into a day number (models the date part of
`pd.to_datetime`). The day-number encoding is monotone in
(year, month, day). -/
def parseDateChars (cs : List Char) : Option Nat :=
  match splitOnChar (Char.ofNat 47) cs with
  | [m, d, y] =>
    match digitsToNat? m, digitsToNat? d, digitsToNat? y with
    | some mo, some da, some yr =>
      if 1 ≤ mo ∧ mo ≤ 12 ∧ 1 ≤ da ∧ da ≤ 31 then
        some (yr * 372 + (mo - 1) * 31 + (da - 1))
      else none
    | _, _, _ => none
  | _ => none

/-- Parse a 12-hour `H:MM:SS` clock together with its AM/PM marker into
minutes past midnight. -/
def parseClockMinutes (t : List Char) (ampm : List Char) : Option Nat :=
  match splitOnChar (Char.ofNat 58) t with
  | [h, mi, se] =>
    match digitsToNat? h, digitsToNat? mi, digitsToNat? se with
    | some hh, some mm, some ss =>
      if 1 ≤ hh ∧ hh ≤ 12 ∧ mm ≤ 59 ∧ ss ≤ 59 then
        some ((if ampm = [Char.ofNat 80, Char.ofNat 77] then hh % 12 + 12
               else hh % 12) * 60 + mm)
      else none
    | _, _, _ => none
  | _ => none

/-- Parse a raw temporal string: either a bare date (midnight) or a
date with a 12-hour time and AM/PM marker, as in the source CSVs
(models `pd.to_datetime` on one cell; `none` is the raised parse
error). -/
def parseTimestamp (s : String) : Option Nat :=
  match splitOnChar (Char.ofNat 32) s.data with
  | [d] => (parseDateChars d).map (fun day => day * minutesPerDay)
  | [d, t, ap] =>
    if ap = [Char.ofNat 65, Char.ofNat 77] ∨ ap = [Char.ofNat 80, Char.ofNat 77] then
      match parseDateChars d, parseClockMinutes t ap with
      | some day, some mins => some (day * minutesPerDay + mins)
      | _, _ => none
    else none
  | _ => none

/-- A pandas float value: either `NaN` (missing) or an actual number. -/
inductive PFloat where
  | nan : PFloat
  | val : ℚ → PFloat
deriving DecidableEq

/-- The numeric content of a `PFloat`, `none` for `NaN`. -/
def PFloat.toOption : PFloat → Option ℚ
  | .nan => none
  | .val q => some q

/-- `Series.mean()` with the default `skipna=True`: the mean of the
non-NaN entries, `NaN` when there are none (in particular on an empty
series). -/
def seriesMean (l : List PFloat) : PFloat :=
  let vs := l.filterMap PFloat.toOption
  if vs.isEmpty then .nan else .val (vs.sum / (vs.length : ℚ))

/-! ### Raw rows, as read from the CSV files (dates still strings) -/

/-- One raw row of `dailyActivity_merged.csv`. -/
structure RawActivityRow where
  id : Nat
  activityDate : String
  totalSteps : Int := 0
  totalDistance : ℚ := 0
  calories : Int := 0
  veryActiveMinutes : Int := 0
  fairlyActiveMinutes : Int := 0
  lightlyActiveMinutes : Int := 0
  sedentaryMinutes : Int := 0
deriving DecidableEq

/-- One raw row of `sleepDay_merged.csv` (its date column is `SleepDay`). -/
structure RawSleepRow where
  id : Nat
  sleepDay : String
  totalMinutesAsleep : Int := 0
deriving DecidableEq

/-- One raw row of an hourly CSV (`value` is the metric column:
`StepTotal`, `TotalIntensity` or `Calories`). -/
structure RawHourlyRow where
  id : Nat
  activityHour : String
  value : Int := 0
deriving DecidableEq

/-! ### Normalized rows (dates coerced to timestamps) -/

/-- A row of the normalized `daily_activity` table. -/
structure ActivityRow where
  id : Nat
  activityDate : Nat
  totalSteps : Int := 0
  totalDistance : ℚ := 0
  calories : Int := 0
  veryActiveMinutes : Int := 0
  fairlyActiveMinutes : Int := 0
  lightlyActiveMinutes : Int := 0
  sedentaryMinutes : Int := 0
deriving DecidableEq

/-- A row of the normalized `daily_sleep` table, after the
`SleepDay → ActivityDate` rename and the `SleepHours` derivation. -/
structure SleepRow where
  id : Nat
  activityDate : Nat
  totalMinutesAsleep : Int := 0
  sleepHours : ℚ := 0
deriving DecidableEq

/-- A row of the normalized `hourly_steps` table. -/
structure HourlyStepsRow where
  id : Nat
  activityHour : Nat
  stepTotal : Int := 0
deriving DecidableEq

/-- A row of the normalized `hourly_intensity` table. -/
structure HourlyIntensityRow where
  id : Nat
  activityHour : Nat
  totalIntensity : Int := 0
deriving DecidableEq

/-- A row of the normalized `hourly_calories` table. -/
structure HourlyCaloriesRow where
  id : Nat
  activityHour : Nat
  calories : Int := 0
deriving DecidableEq

/-- A row of the derived `daily_combined` table: the activity columns
under their public names (`Steps`, `Distance`, `Calories Burned`) plus
the sleep columns, which are float columns that hold `NaN` when the
left join found no sleep match. -/
structure CombinedRow where
  id : Nat
  activityDate : Nat
  steps : Int := 0
  distance : ℚ := 0
  caloriesBurned : Int := 0
  veryActiveMinutes : Int := 0
  fairlyActiveMinutes : Int := 0
  lightlyActiveMinutes : Int := 0
  sedentaryMinutes : Int := 0
  totalMinutesAsleep : PFloat := .nan
  sleepingHours : PFloat := .nan
deriving DecidableEq

/-- The combined row for an activity row with a matching sleep row. -/
def combineMatch (a : ActivityRow) (s : SleepRow) : CombinedRow :=
  { id := a.id, activityDate := a.activityDate, steps := a.totalSteps,
    distance := a.totalDistance, caloriesBurned := a.calories,
    veryActiveMinutes := a.veryActiveMinutes,
    fairlyActiveMinutes := a.fairlyActiveMinutes,
    lightlyActiveMinutes := a.lightlyActiveMinutes,
    sedentaryMinutes := a.sedentaryMinutes,
    totalMinutesAsleep := .val (s.totalMinutesAsleep : ℚ),
    sleepingHours := .val s.sleepHours }

/-- The combined row for an activity row with no sleep match: the sleep
columns are null-filled (`NaN`). -/
def combineNone (a : ActivityRow) : CombinedRow :=
  { id := a.id, activityDate := a.activityDate, steps := a.totalSteps,
    distance := a.totalDistance, caloriesBurned := a.calories,
    veryActiveMinutes := a.veryActiveMinutes,
    fairlyActiveMinutes := a.fairlyActiveMinutes,
    lightlyActiveMinutes := a.lightlyActiveMinutes,
    sedentaryMinutes := a.sedentaryMinutes,
    totalMinutesAsleep := .nan, sleepingHours := .nan }

/-- Whether a sleep row matches an activity row on the join key
`(Id, ActivityDate)`. -/
def sleepKeyMatch (a : ActivityRow) (s : SleepRow) : Bool :=
  s.id == a.id && s.activityDate == a.activityDate

/-- `pd.merge(daily_activity, daily_sleep, on=["Id", "ActivityDate"],
how="left")`: each left row, in order, paired with every matching right
row in order, or null-filled when there is no match. -/
def mergeLeft (act : List ActivityRow) (slp : List SleepRow) : List CombinedRow :=
  act.flatMap fun a =>
    let ms := slp.filter (sleepKeyMatch a)
    if ms.isEmpty then [combineNone a] else ms.map (combineMatch a)

/-! ### The loader -/

/-- Load-time failure: an unparseable temporal value
(`pd.to_datetime` raising with its default `errors="raise"`). -/
inductive LoadError where
  | malformedInput
deriving DecidableEq

/-- Coerce the `ActivityDate` column of the raw activity table
(`pd.to_datetime(daily_activity["ActivityDate"])`): the first
unparseable value fails the whole column. -/
def coerceActivity : List RawActivityRow → Except LoadError (List ActivityRow)
  | [] => .ok []
  | r :: rest =>
    match parseTimestamp r.activityDate with
    | none => .error .malformedInput
    | some t =>
      match coerceActivity rest with
      | .error e => .error e
      | .ok rs =>
        .ok ({ id := r.id, activityDate := t, totalSteps := r.totalSteps,
               totalDistance := r.totalDistance, calories := r.calories,
               veryActiveMinutes := r.veryActiveMinutes,
               fairlyActiveMinutes := r.fairlyActiveMinutes,
               lightlyActiveMinutes := r.lightlyActiveMinutes,
               sedentaryMinutes := r.sedentaryMinutes } :: rs)

/-- Normalize the raw sleep table: the `SleepDay → ActivityDate` rename,
the derived `SleepHours = TotalMinutesAsleep / 60` column, and the
coercion of the date column. -/
def coerceSleep : List RawSleepRow → Except LoadError (List SleepRow)
  | [] => .ok []
  | r :: rest =>
    match parseTimestamp r.sleepDay with
    | none => .error .malformedInput
    | some t =>
      match coerceSleep rest with
      | .error e => .error e
      | .ok rs =>
        .ok ({ id := r.id, activityDate := t,
               totalMinutesAsleep := r.totalMinutesAsleep,
               sleepHours := (r.totalMinutesAsleep : ℚ) / 60 } :: rs)

/-- Coerce the `ActivityHour` column of a raw hourly table; `mk` builds
the typed row from id, timestamp and metric value. -/
def coerceHourly {β : Type} (mk : Nat → Nat → Int → β) :
    List RawHourlyRow → Except LoadError (List β)
  | [] => .ok []
  | r :: rest =>
    match parseTimestamp r.activityHour with
    | none => .error .malformedInput
    | some t =>
      match coerceHourly mk rest with
      | .error e => .error e
      | .ok rs => .ok (mk r.id t r.value :: rs)

/-- The six normalized in-memory tables returned by `load_data`. -/
structure Tables where
  daily_activity : List ActivityRow
  daily_sleep : List SleepRow
  hourly_steps : List HourlyStepsRow
  hourly_intensity : List HourlyIntensityRow
  hourly_calories : List HourlyCaloriesRow
  daily_combined : List CombinedRow
deriving DecidableEq

/-- `load_data()`: normalize the five raw tables (rename, derive
`SleepHours`, coerce dates in the source's order: activity, sleep,
hourly calories, hourly steps, hourly intensity) and build
`daily_combined` by the left merge. Any coercion failure aborts the
load; no partial dataset is returned. -/
def load_data (rawAct : List RawActivityRow) (rawSleep : List RawSleepRow)
    (rawSteps rawInt rawCal : List RawHourlyRow) : Except LoadError Tables :=
  match coerceActivity rawAct with
  | .error e => .error e
  | .ok act =>
    match coerceSleep rawSleep with
    | .error e => .error e
    | .ok slp =>
      match coerceHourly HourlyCaloriesRow.mk rawCal with
      | .error e => .error e
      | .ok cals =>
        match coerceHourly HourlyStepsRow.mk rawSteps with
        | .error e => .error e
        | .ok steps =>
          match coerceHourly HourlyIntensityRow.mk rawInt with
          | .error e => .error e
          | .ok ints =>
            .ok { daily_activity := act, daily_sleep := slp,
                  hourly_steps := steps, hourly_intensity := ints,
                  hourly_calories := cals,
                  daily_combined := mergeLeft act slp }

/-! ### The query layer -/

/-- `daily_combined["Steps"].mean()`. -/
def avg_steps (dc : List CombinedRow) : PFloat :=
  seriesMean (dc.map fun r => PFloat.val (r.steps : ℚ))

/-- `daily_combined["Distance"].mean()`. -/
def avg_distance (dc : List CombinedRow) : PFloat :=
  seriesMean (dc.map fun r => PFloat.val r.distance)

/-- `daily_combined["Calories Burned"].mean()`. -/
def avg_calories (dc : List CombinedRow) : PFloat :=
  seriesMean (dc.map fun r => PFloat.val (r.caloriesBurned : ℚ))

/-- `daily_combined["Sleeping Hours"].mean()`: the column itself may
hold `NaN`, which the mean skips. -/
def avg_sleep (dc : List CombinedRow) : PFloat :=
  seriesMean (dc.map fun r => r.sleepingHours)

/-- Row types carrying the `Id` and `ActivityHour` columns that
`get_user_df` reads. -/
class HasUserHour (α : Type) where
  idOf : α → Nat
  hourOf : α → Nat

instance : HasUserHour HourlyStepsRow :=
  ⟨HourlyStepsRow.id, HourlyStepsRow.activityHour⟩

instance : HasUserHour HourlyIntensityRow :=
  ⟨HourlyIntensityRow.id, HourlyIntensityRow.activityHour⟩

instance : HasUserHour HourlyCaloriesRow :=
  ⟨HourlyCaloriesRow.id, HourlyCaloriesRow.activityHour⟩

/-- `get_user_df(user, date, df)`: keep the rows with `Id == user` whose
`ActivityHour`, truncated to its date portion (`.dt.date`), equals the
selected date. Row order of `df` is preserved; nothing is sorted. -/
def get_user_df {α : Type} [HasUserHour α] (user date : Nat) (df : List α) : List α :=
  df.filter fun r => HasUserHour.idOf r == user && dateOf (HasUserHour.hourOf r) == date

/-- `daily_activity[daily_activity["Id"] == user]`. -/
def user_df (user : Nat) (act : List ActivityRow) : List ActivityRow :=
  act.filter fun r => r.id == user

/-- `user_df["ActivityDate"].min()`: `none` models the `NaT` a min of an
empty series produces. -/
def user_min_date (user : Nat) (act : List ActivityRow) : Option Nat :=
  ((user_df user act).map (fun r => r.activityDate)).min?

/-- `user_df["ActivityDate"].max()`. -/
def user_max_date (user : Nat) (act : List ActivityRow) : Option Nat :=
  ((user_df user act).map (fun r => r.activityDate)).max?

/-- The (min, max) date pair bounding the date picker; absent when the
user has no rows. -/
def userDateRange (user : Nat) (act : List ActivityRow) : Option (Nat × Nat) :=
  match user_min_date user act, user_max_date user act with
  | some lo, some hi => some (lo, hi)
  | _, _ => none

/-- `user_df[user_df["ActivityDate"] == pd.to_datetime(date)]`: the
daily slice compares the stored `ActivityDate` timestamp for exact
equality with the selected date's midnight timestamp. -/
def day_df (user date : Nat) (act : List ActivityRow) : List ActivityRow :=
  (user_df user act).filter fun r => r.activityDate == midnight date

/-- A row of the combined hourly view (`hourly_data`). -/
structure HourlyDataRow where
  id : Nat
  activityHour : Nat
  calories : Int := 0
  totalIntensity : Int := 0
deriving DecidableEq

/-- `hour_calories.merge(hour_intensity[["ActivityHour",
"TotalIntensity"]], on="ActivityHour")`: an inner join on
`ActivityHour` (pandas' default `how="inner"`). -/
def hourly_data (hourCal : List HourlyCaloriesRow) (hourInt : List HourlyIntensityRow) :
    List HourlyDataRow :=
  hourCal.flatMap fun c =>
    (hourInt.filter fun i => i.activityHour == c.activityHour).map fun i =>
      { id := c.id, activityHour := c.activityHour, calories := c.calories,
        totalIntensity := i.totalIntensity }

/-- Everything the per-user/per-day drill-down computes from the tables. -/
structure SliceResult where
  day : List ActivityRow
  hourSteps : List HourlyStepsRow
  hourIntensity : List HourlyIntensityRow
  hourCalories : List HourlyCaloriesRow
  hourCombined : List HourlyDataRow
deriving DecidableEq

/-- `UserDaySlice(user, date)`: the daily slice, the three hourly
slices, and the combined hourly view, all read-only over the tables. -/
def userDaySlice (user date : Nat) (t : Tables) : SliceResult :=
  let hc := get_user_df user date t.hourly_calories
  let hs := get_user_df user date t.hourly_steps
  let hin := get_user_df user date t.hourly_intensity
  { day := day_df user date t.daily_activity,
    hourSteps := hs, hourIntensity := hin, hourCalories := hc,
    hourCombined := hourly_data hc hin }

/-- `UserDaySlice` threaded through the table state: the result together
with the state the tables are left in (the queries only read). -/
def runUserDaySlice (user date : Nat) (t : Tables) : SliceResult × Tables :=
  (userDaySlice user date t, t)

/-! ### Helper lemmas -/

/-- The join key of a sleep row. -/
def sleepKey (s : SleepRow) : Nat × Nat := (s.id, s.activityDate)

/-! ### Concrete tables used by counterexamples and witnesses -/

/-- Duplicate-key data: one activity row, two sleep rows sharing its
(UserId, ActivityDate) key. -/
def actC1 : List ActivityRow :=
  [{ id := 1, activityDate := midnight 100, totalSteps := 9000 }]

def slpC1 : List SleepRow :=
  [{ id := 1, activityDate := midnight 100, totalMinutesAsleep := 300, sleepHours := 5 },
   { id := 1, activityDate := midnight 100, totalMinutesAsleep := 360, sleepHours := 6 }]

def slpC1uniq : List SleepRow :=
  [{ id := 1, activityDate := midnight 100, totalMinutesAsleep := 300, sleepHours := 5 }]

/-- An activity row with no sleep match, and a combined row with valid
Sleeping Hours, for the null-sleep mean data. -/
def aW3 : ActivityRow :=
  { id := 2, activityDate := midnight 101, totalSteps := 10000,
    totalDistance := 13 / 2, calories := 2000 }

def cV3 : CombinedRow :=
  { id := 3, activityDate := midnight 102, sleepingHours := PFloat.val 7 }

/-- Inner-join scenario tables: user 1's hourly calories at 08:00 and
09:00 of day 200, hourly intensity at 08:00 only. -/
def calW4 : List HourlyCaloriesRow :=
  [{ id := 1, activityHour := midnight 200 + 480, calories := 50 },
   { id := 1, activityHour := midnight 200 + 540, calories := 60 }]

def intW4 : List HourlyIntensityRow :=
  [{ id := 1, activityHour := midnight 200 + 480, totalIntensity := 5 }]

/-- A table that is not sorted by ActivityHour: 09:00 before 08:00 of
day 0, both for user 1. -/
def dfC5 : List HourlyStepsRow :=
  [{ id := 1, activityHour := midnight 0 + 540, stepTotal := 20 },
   { id := 1, activityHour := midnight 0 + 480, stepTotal := 10 }]

/-- A sorted hourly table, and its first row. -/
def dfW5 : List HourlyStepsRow :=
  [{ id := 1, activityHour := midnight 300 + 480, stepTotal := 10 },
   { id := 1, activityHour := midnight 300 + 540, stepTotal := 20 },
   { id := 2, activityHour := midnight 300 + 600, stepTotal := 30 }]

def rW5 : HourlyStepsRow :=
  { id := 1, activityHour := midnight 300 + 480, stepTotal := 10 }

/-- Date-range scenario rows: three rows for user 1 dated day 10,
day 12, day 11 (as midnight timestamps). -/
def actW7 : List ActivityRow :=
  [{ id := 1, activityDate := midnight 10 },
   { id := 1, activityDate := midnight 12 },
   { id := 1, activityDate := midnight 11 }]

/-- One raw sleep row with 360 minutes asleep, and its normalized form. -/
def rawSleepW : List RawSleepRow :=
  [{ id := 1, sleepDay := "1/1/0", totalMinutesAsleep := 360 }]

def outSleepW : SleepRow :=
  { id := 1, activityDate := 0, totalMinutesAsleep := 360,
    sleepHours := ((360 : Int) : ℚ) / 60 }

/-- A raw activity table whose date does not parse. -/
def rawActBad : List RawActivityRow := [{ id := 1, activityDate := "notadate" }]

/-- A raw activity table that parses (day 0), and the tables a clean
load of it produces. -/
def rawActGood : List RawActivityRow :=
  [{ id := 1, activityDate := "1/1/0", totalSteps := 5 }]

def actRowGood : ActivityRow := { id := 1, activityDate := 0, totalSteps := 5 }

def tGood : Tables :=
  { daily_activity := [actRowGood], daily_sleep := [], hourly_steps := [],
    hourly_intensity := [], hourly_calories := [],
    daily_combined := [combineNone actRowGood] }

/-- An activity row stored at 01:00 of day 5, and an hourly row at the
same instant. -/
def rW10 : ActivityRow := { id := 1, activityDate := midnight 5 + 60 }

def actW10 : List ActivityRow := [rW10]

def hW10 : HourlyStepsRow := { id := 1, activityHour := midnight 5 + 60, stepTotal := 100 }

/-! ### Theorems -/

theorem nodup_of_length_le_one {α : Type} (l : List α) (h : l.length ≤ 1) :
    l.Nodup := by
  match l with
  | [] => simp
  | [a] => simp
  | a :: b :: t => simp at h

theorem mergeLeft_cons (a : ActivityRow) (act : List ActivityRow) (slp : List SleepRow) :
    mergeLeft (a :: act) slp =
      (if (slp.filter (sleepKeyMatch a)).isEmpty then [combineNone a]
       else (slp.filter (sleepKeyMatch a)).map (combineMatch a)) ++
        mergeLeft act slp := by
  simp [mergeLeft]

theorem filter_sleepKeyMatch_length_le_one (a : ActivityRow) (slp : List SleepRow)
    (h : (slp.map sleepKey).Nodup) :
    (slp.filter (sleepKeyMatch a)).length ≤ 1 := by
  induction slp with
  | nil => simp
  | cons s rest ih =>
    simp only [List.map_cons, List.nodup_cons] at h
    obtain ⟨hs, hrest⟩ := h
    by_cases hm : sleepKeyMatch a s
    · rw [List.filter_cons_of_pos hm]
      have hnil : rest.filter (sleepKeyMatch a) = [] := by
        rw [List.filter_eq_nil_iff]
        intro t ht hmt
        apply hs
        have h1 : sleepKey t = sleepKey s := by
          simp only [sleepKeyMatch, Bool.and_eq_true, beq_iff_eq] at hm hmt
          simp [sleepKey, hm.1, hm.2, hmt.1, hmt.2]
        rw [← h1]
        exact List.mem_map_of_mem sleepKey ht
      simp [hnil]
    · rw [List.filter_cons_of_neg hm]
      exact ih hrest

/-- C1 counterexample: with two DailySleep rows sharing the
(UserId, ActivityDate) key of the single DailyActivity row, the left
merge emits two rows, so `len(DailyCombined) ≠ len(DailyActivity)`. -/
theorem mergeLeft_dup_keys_duplicates_left_row :
    (mergeLeft actC1 slpC1).length ≠ actC1.length := by decide

/-- C1 (amended): when the DailySleep (UserId, ActivityDate) keys are
pairwise distinct, the left join neither drops nor duplicates any
DailyActivity row: `len(DailyCombined) = len(DailyActivity)`. -/
theorem mergeLeft_length_of_nodup_keys (act : List ActivityRow) (slp : List SleepRow)
    (h : (slp.map sleepKey).Nodup) :
    (mergeLeft act slp).length = act.length := by
  induction act with
  | nil => simp [mergeLeft]
  | cons a rest ih =>
    have hle := filter_sleepKeyMatch_length_le_one a slp h
    have h1 : (if (slp.filter (sleepKeyMatch a)).isEmpty then [combineNone a]
               else (slp.filter (sleepKeyMatch a)).map (combineMatch a)).length = 1 := by
      by_cases he : (slp.filter (sleepKeyMatch a)).isEmpty
      · simp [he]
      · have hne : slp.filter (sleepKeyMatch a) ≠ [] := by
          simpa [List.isEmpty_iff] using he
        have hpos : 0 < (slp.filter (sleepKeyMatch a)).length :=
          List.length_pos.mpr hne
        simp only [he, if_neg, Bool.false_eq_true, not_false_iff, List.length_map]
        omega
    rw [mergeLeft_cons, List.length_append, ih, h1, List.length_cons]
    omega

/-- C1 witness: the amended theorem applied to concrete tables with
unique sleep keys. -/
theorem mergeLeft_length_of_nodup_keys_witness :
    (slpC1uniq.map sleepKey).Nodup ∧
      (mergeLeft actC1 slpC1uniq).length = actC1.length :=
  ⟨by decide, mergeLeft_length_of_nodup_keys actC1 slpC1uniq (by decide)⟩

/-- C2 counterexample: on an empty DailyCombined every one of the four
cohort metrics evaluates to `NaN` — the code has no `NoData` result, so
the claim that the aggregate is "not NaN" is false on the empty table. -/
theorem cohort_aggregate_empty_is_nan :
    avg_steps [] = PFloat.nan ∧ avg_distance [] = PFloat.nan ∧
      avg_calories [] = PFloat.nan ∧ avg_sleep [] = PFloat.nan :=
  ⟨rfl, rfl, rfl, rfl⟩

/-- C2 (amended): when DailyCombined is empty, each of the four cohort
aggregates (Steps, Distance, Calories Burned, Sleeping Hours) evaluates
to `NaN` — the `mean()` call returns (no crash) but yields NaN, not a
distinguished `NoData` value and not zero. -/
theorem cohort_aggregate_nan_of_empty (dc : List CombinedRow) (h : dc = []) :
    avg_steps dc = PFloat.nan ∧ avg_distance dc = PFloat.nan ∧
      avg_calories dc = PFloat.nan ∧ avg_sleep dc = PFloat.nan := by
  subst h
  exact ⟨rfl, rfl, rfl, rfl⟩

/-- C2 witness: the amended theorem applied to the empty table. -/
theorem cohort_aggregate_nan_of_empty_witness :
    ([] : List CombinedRow) = [] ∧
      (avg_steps [] = PFloat.nan ∧ avg_distance [] = PFloat.nan ∧
        avg_calories [] = PFloat.nan ∧ avg_sleep [] = PFloat.nan) :=
  ⟨rfl, cohort_aggregate_nan_of_empty [] rfl⟩

theorem seriesMean_append_nan (l : List PFloat) :
    seriesMean (l ++ [PFloat.nan]) = seriesMean l := by
  simp [seriesMean, List.filterMap_append, PFloat.toOption]

/-- C3: any DailyCombined row whose (UserId, ActivityDate) key has no
match in DailySleep carries `NaN` (null) Sleeping Hours — not zero —
and the cohort Sleeping-Hours mean ignores such rows entirely:
appending a null-sleep row changes neither the numerator nor the
denominator of `avg_sleep`. -/
theorem unmatched_sleep_is_nan_and_mean_skips (act : List ActivityRow) (slp : List SleepRow) :
    (∀ c ∈ mergeLeft act slp,
        (∀ s ∈ slp, ¬(s.id = c.id ∧ s.activityDate = c.activityDate)) →
          c.sleepingHours = PFloat.nan)
    ∧ (∀ (dc : List CombinedRow) (c : CombinedRow), c.sleepingHours = PFloat.nan →
        avg_sleep (dc ++ [c]) = avg_sleep dc) := by
  constructor
  · intro c hc hnone
    rw [mergeLeft, List.mem_flatMap] at hc
    obtain ⟨a, ha, hca⟩ := hc
    by_cases he : (slp.filter (sleepKeyMatch a)).isEmpty
    · simp only [he, if_pos, List.mem_singleton] at hca
      subst hca
      rfl
    · simp only [he, Bool.false_eq_true, if_neg, not_false_iff, List.mem_map] at hca
      obtain ⟨s, hs, hcs⟩ := hca
      rw [List.mem_filter] at hs
      exfalso
      apply hnone s hs.1
      have hkey := hs.2
      simp only [sleepKeyMatch, Bool.and_eq_true, beq_iff_eq] at hkey
      subst hcs
      simpa [combineMatch] using hkey
  · intro dc c hnan
    simp only [avg_sleep, List.map_append, List.map_cons, List.map_nil, hnan]
    exact seriesMean_append_nan _

/-- C3 witness: the theorem applied to a one-row activity table with an
empty sleep table, and to a mean over one valid plus one null row. -/
theorem unmatched_sleep_is_nan_and_mean_skips_witness :
    (combineNone aW3 ∈ mergeLeft [aW3] [] ∧
      (∀ s ∈ ([] : List SleepRow),
        ¬(s.id = (combineNone aW3).id ∧ s.activityDate = (combineNone aW3).activityDate)) ∧
      (combineNone aW3).sleepingHours = PFloat.nan) ∧
    avg_sleep ([cV3] ++ [combineNone aW3]) = avg_sleep [cV3] :=
  ⟨⟨by simp [mergeLeft, combineNone], by simp,
    (unmatched_sleep_is_nan_and_mean_skips [aW3] []).1 (combineNone aW3)
      (by simp [mergeLeft, combineNone]) (by simp)⟩,
   (unmatched_sleep_is_nan_and_mean_skips [aW3] []).2 [cV3] (combineNone aW3) rfl⟩

theorem filter_hour_length_le_one (h0 : Nat) (hourInt : List HourlyIntensityRow)
    (hn : (hourInt.map (fun r => r.activityHour)).Nodup) :
    (hourInt.filter (fun i => i.activityHour == h0)).length ≤ 1 := by
  induction hourInt with
  | nil => simp
  | cons x rest ih =>
    simp only [List.map_cons, List.nodup_cons] at hn
    obtain ⟨hx, hrest⟩ := hn
    by_cases hm : x.activityHour == h0
    · have hstep : (x :: rest).filter (fun i => i.activityHour == h0) =
          x :: rest.filter (fun i => i.activityHour == h0) := by
        simp [List.filter_cons, hm]
      rw [hstep]
      have hnil : rest.filter (fun i => i.activityHour == h0) = [] := by
        rw [List.filter_eq_nil_iff]
        intro j hj hmj
        apply hx
        have hji : j.activityHour = x.activityHour := by
          simp only [beq_iff_eq] at hm hmj
          omega
        rw [← hji]
        exact List.mem_map_of_mem _ hj
      simp [hnil]
    · have hstep : (x :: rest).filter (fun i => i.activityHour == h0) =
          rest.filter (fun i => i.activityHour == h0) := by
        simp only [List.filter_cons, Bool.not_eq_true] at hm ⊢
        simp [hm]
      rw [hstep]
      exact ih hrest

theorem mem_hours_hourly_data (hourCal : List HourlyCaloriesRow)
    (hourInt : List HourlyIntensityRow) (h : Nat) :
    h ∈ (hourly_data hourCal hourInt).map (fun r => r.activityHour) ↔
      (h ∈ hourCal.map (fun r => r.activityHour) ∧
        h ∈ hourInt.map (fun r => r.activityHour)) := by
  simp only [hourly_data, List.mem_map, List.mem_flatMap, List.mem_filter, beq_iff_eq]
  constructor
  · rintro ⟨r, ⟨c, hc, i, ⟨hiMem, hieq⟩, rfl⟩, rfl⟩
    exact ⟨⟨c, hc, rfl⟩, ⟨i, hiMem, hieq⟩⟩
  · rintro ⟨⟨c, hc, rfl⟩, ⟨i, hiMem, hieq⟩⟩
    exact ⟨_, ⟨c, hc, i, ⟨hiMem, hieq⟩, rfl⟩, rfl⟩

theorem nodup_hours_hourly_data (hourCal : List HourlyCaloriesRow)
    (hourInt : List HourlyIntensityRow)
    (hcn : (hourCal.map (fun r => r.activityHour)).Nodup)
    (hin : (hourInt.map (fun r => r.activityHour)).Nodup) :
    ((hourly_data hourCal hourInt).map (fun r => r.activityHour)).Nodup := by
  induction hourCal with
  | nil => simp [hourly_data]
  | cons c rest ih =>
    simp only [List.map_cons, List.nodup_cons] at hcn
    obtain ⟨hc, hrest⟩ := hcn
    have hcons : hourly_data (c :: rest) hourInt =
        ((hourInt.filter fun i => i.activityHour == c.activityHour).map fun i =>
          { id := c.id, activityHour := c.activityHour, calories := c.calories,
            totalIntensity := i.totalIntensity }) ++ hourly_data rest hourInt := by
      simp [hourly_data]
    rw [hcons, List.map_append]
    apply List.Nodup.append
    · apply nodup_of_length_le_one
      rw [List.map_map, List.length_map]
      exact filter_hour_length_le_one c.activityHour hourInt hin
    · exact ih hrest
    · intro x hx hx2
      rw [List.map_map] at hx
      obtain ⟨i, hiMem, hieq⟩ := List.mem_map.mp hx
      have hxc : x = c.activityHour := by simpa using hieq.symm
      subst hxc
      have hmem := (mem_hours_hourly_data rest hourInt c.activityHour).mp hx2
      exact hc hmem.1

/-- C4: the combined hourly view is the inner join of HourlyCalories
and HourlyIntensity on ActivityHour: its hours are exactly the hours
present in both tables (without duplication when each table has at most
one row per hour), each output row carries that hour's Calories and
TotalIntensity, and the HourlySteps component of the slice is unaffected
by the contents of the two joined tables. -/
theorem hourly_data_inner_join (hourCal : List HourlyCaloriesRow)
    (hourInt : List HourlyIntensityRow)
    (hcn : (hourCal.map (fun r => r.activityHour)).Nodup)
    (hin : (hourInt.map (fun r => r.activityHour)).Nodup) :
    (∀ h : Nat, h ∈ (hourly_data hourCal hourInt).map (fun r => r.activityHour) ↔
        (h ∈ hourCal.map (fun r => r.activityHour) ∧
          h ∈ hourInt.map (fun r => r.activityHour)))
    ∧ (∀ r ∈ hourly_data hourCal hourInt,
        ∃ c ∈ hourCal, ∃ i ∈ hourInt,
          c.activityHour = r.activityHour ∧ i.activityHour = r.activityHour ∧
            r.calories = c.calories ∧ r.totalIntensity = i.totalIntensity ∧ r.id = c.id)
    ∧ ((hourly_data hourCal hourInt).map (fun r => r.activityHour)).Nodup
    ∧ (∀ (user date : Nat) (t : Tables) (cal2 : List HourlyCaloriesRow)
        (int2 : List HourlyIntensityRow),
        (userDaySlice user date
            { t with hourly_calories := cal2, hourly_intensity := int2 }).hourSteps =
          (userDaySlice user date t).hourSteps) := by
  refine ⟨mem_hours_hourly_data hourCal hourInt, ?_,
    nodup_hours_hourly_data hourCal hourInt hcn hin, fun _ _ _ _ _ => rfl⟩
  intro r hr
  simp only [hourly_data, List.mem_flatMap, List.mem_map, List.mem_filter,
    beq_iff_eq] at hr
  obtain ⟨c, hc, i, ⟨hiMem, hieq⟩, rfl⟩ := hr
  exact ⟨c, hc, i, hiMem, rfl, hieq, rfl, rfl, rfl⟩

/-- The scenario pinned concretely: the combined view has exactly one
row, 08:00 with Calories 50 and TotalIntensity 5. -/
theorem hourly_data_scenario :
    hourly_data calW4 intW4 =
      [{ id := 1, activityHour := midnight 200 + 480, calories := 50,
         totalIntensity := 5 }] := by decide

/-- C4 witness: the theorem applied to the scenario tables. -/
theorem hourly_data_inner_join_witness :
    ((calW4.map (fun r => r.activityHour)).Nodup ∧
      (intW4.map (fun r => r.activityHour)).Nodup) ∧
    ((∀ h : Nat, h ∈ (hourly_data calW4 intW4).map (fun r => r.activityHour) ↔
        (h ∈ calW4.map (fun r => r.activityHour) ∧
          h ∈ intW4.map (fun r => r.activityHour)))
    ∧ (∀ r ∈ hourly_data calW4 intW4,
        ∃ c ∈ calW4, ∃ i ∈ intW4,
          c.activityHour = r.activityHour ∧ i.activityHour = r.activityHour ∧
            r.calories = c.calories ∧ r.totalIntensity = i.totalIntensity ∧ r.id = c.id)
    ∧ ((hourly_data calW4 intW4).map (fun r => r.activityHour)).Nodup
    ∧ (∀ (user date : Nat) (t : Tables) (cal2 : List HourlyCaloriesRow)
        (int2 : List HourlyIntensityRow),
        (userDaySlice user date
            { t with hourly_calories := cal2, hourly_intensity := int2 }).hourSteps =
          (userDaySlice user date t).hourSteps)) :=
  ⟨⟨by decide, by decide⟩, hourly_data_inner_join calW4 intW4 (by decide) (by decide)⟩

/-- C5 counterexample: `get_user_df` only filters — it preserves the
source order and does not sort, so on a source table stored out of
order the returned hourly sequence is not sorted by ActivityHour. -/
theorem get_user_df_output_not_sorted :
    ¬ List.Sorted (fun x y => x ≤ y)
        ((get_user_df 1 0 dfC5).map (fun r => HasUserHour.hourOf r)) := by
  decide

/-- C5 (amended): `get_user_df(u, d, df)` returns exactly the rows of
`df` with UserId = u whose ActivityHour date portion equals d — no row
is added, dropped or reordered — and the result is sorted by
ActivityHour ascending whenever the source table is (the code itself
never sorts). -/
theorem get_user_df_exact_rows_order_preserving {α : Type} [HasUserHour α]
    (u d : Nat) (df : List α) :
    (∀ r : α, r ∈ get_user_df u d df ↔
        (r ∈ df ∧ HasUserHour.idOf r = u ∧ dateOf (HasUserHour.hourOf r) = d))
    ∧ (List.Sorted (fun x y => x ≤ y) (df.map (fun r => HasUserHour.hourOf r)) →
        List.Sorted (fun x y => x ≤ y)
          ((get_user_df u d df).map (fun r => HasUserHour.hourOf r))) := by
  constructor
  · intro r
    simp [get_user_df, List.mem_filter, and_assoc]
  · intro hs
    exact List.Pairwise.sublist
      (List.Sublist.map _ (List.filter_sublist df)) hs

/-- C5 witness: the amended theorem applied to a concrete sorted table. -/
theorem get_user_df_exact_rows_order_preserving_witness :
    (rW5 ∈ get_user_df 1 300 dfW5 ↔
      (rW5 ∈ dfW5 ∧ HasUserHour.idOf rW5 = 1 ∧ dateOf (HasUserHour.hourOf rW5) = 300)) ∧
    List.Sorted (fun x y => x ≤ y)
      ((get_user_df 1 300 dfW5).map (fun r => HasUserHour.hourOf r)) :=
  ⟨(get_user_df_exact_rows_order_preserving 1 300 dfW5).1 rW5,
   (get_user_df_exact_rows_order_preserving 1 300 dfW5).2 (by decide)⟩

/-- C6: the per-user/per-day slice is a pure, deterministic read of the
loaded tables: running it leaves the table state unchanged, and running
it twice in sequence returns the identical result. -/
theorem userDaySlice_pure_and_idempotent (u d : Nat) (t : Tables) :
    (runUserDaySlice u d ((runUserDaySlice u d t).2)).1 = (runUserDaySlice u d t).1
    ∧ (runUserDaySlice u d t).2 = t :=
  ⟨rfl, rfl⟩

theorem mem_user_dates (u : Nat) (act : List ActivityRow) (x : Nat) :
    x ∈ (user_df u act).map (fun r => r.activityDate) ↔
      ∃ r ∈ act, r.id = u ∧ r.activityDate = x := by
  simp only [user_df, List.mem_map, List.mem_filter, beq_iff_eq]
  constructor
  · rintro ⟨r, ⟨hr, hid⟩, rfl⟩
    exact ⟨r, hr, hid, rfl⟩
  · rintro ⟨r, hr, hid, rfl⟩
    exact ⟨r, ⟨hr, hid⟩, rfl⟩

/-- C7: for a user with at least one DailyActivity row, the date range
is `some (lo, hi)` where `lo` and `hi` are attained dates bounding all
of the user's ActivityDate values from below and above; for a user with
no rows the range is absent (the min/max of an empty series). -/
theorem userDateRange_min_max (u : Nat) (act : List ActivityRow) :
    ((∃ r ∈ act, r.id = u) →
      ∃ lo hi, userDateRange u act = some (lo, hi) ∧
        (∃ r ∈ act, r.id = u ∧ r.activityDate = lo) ∧
        (∃ r ∈ act, r.id = u ∧ r.activityDate = hi) ∧
        (∀ r ∈ act, r.id = u → lo ≤ r.activityDate ∧ r.activityDate ≤ hi))
    ∧ ((∀ r ∈ act, r.id ≠ u) → userDateRange u act = none) := by
  constructor
  · rintro ⟨r, hr, hid⟩
    have hmem : r.activityDate ∈ (user_df u act).map (fun s => s.activityDate) :=
      (mem_user_dates u act _).mpr ⟨r, hr, hid, rfl⟩
    have hne : (user_df u act).map (fun s => s.activityDate) ≠ [] :=
      List.ne_nil_of_mem hmem
    cases hmin : ((user_df u act).map (fun s => s.activityDate)).min? with
    | none => exact absurd (List.min?_eq_none_iff.mp hmin) hne
    | some lo =>
      cases hmax : ((user_df u act).map (fun s => s.activityDate)).max? with
      | none => exact absurd (List.max?_eq_none_iff.mp hmax) hne
      | some hi =>
        obtain ⟨hloMem, hloLe⟩ := List.min?_eq_some_iff'.mp hmin
        obtain ⟨hhiMem, hhiLe⟩ := List.max?_eq_some_iff'.mp hmax
        refine ⟨lo, hi, ?_, (mem_user_dates u act lo).mp hloMem,
          (mem_user_dates u act hi).mp hhiMem, ?_⟩
        · simp [userDateRange, user_min_date, user_max_date, hmin, hmax]
        · intro s hs hsid
          have hsd : s.activityDate ∈ (user_df u act).map (fun x => x.activityDate) :=
            (mem_user_dates u act _).mpr ⟨s, hs, hsid, rfl⟩
          exact ⟨hloLe _ hsd, hhiLe _ hsd⟩
  · intro hnone
    have hempty : user_df u act = [] := by
      rw [user_df, List.filter_eq_nil_iff]
      intro r hr
      simp [hnone r hr]
    simp [userDateRange, user_min_date, user_max_date, hempty]

/-- The scenario pinned concretely: the range is (day 10, day 12). -/
theorem userDateRange_scenario :
    userDateRange 1 actW7 = some (midnight 10, midnight 12) := by decide

/-- C7 witness: the theorem applied to the scenario table, and to a
user with no rows. -/
theorem userDateRange_min_max_witness :
    ((∃ r ∈ actW7, r.id = 1) ∧
      (∃ lo hi, userDateRange 1 actW7 = some (lo, hi) ∧
        (∃ r ∈ actW7, r.id = 1 ∧ r.activityDate = lo) ∧
        (∃ r ∈ actW7, r.id = 1 ∧ r.activityDate = hi) ∧
        (∀ r ∈ actW7, r.id = 1 → lo ≤ r.activityDate ∧ r.activityDate ≤ hi))) ∧
    ((∀ r ∈ actW7, r.id ≠ 9) ∧ userDateRange 9 actW7 = none) :=
  ⟨⟨by decide, (userDateRange_min_max 1 actW7).1 (by decide)⟩,
   ⟨by decide, (userDateRange_min_max 9 actW7).2 (by decide)⟩⟩

/-- C8: every normalized DailySleep row satisfies
`SleepHours = TotalMinutesAsleep / 60` — exact division with no rounding
step applied — and in particular 360 minutes yield exactly 6 hours. -/
theorem sleepHours_is_minutes_div_sixty (raw : List RawSleepRow) (out : List SleepRow)
    (h : coerceSleep raw = .ok out) :
    ∀ s ∈ out, s.sleepHours = (s.totalMinutesAsleep : ℚ) / 60 ∧
      (s.totalMinutesAsleep = 360 → s.sleepHours = 6) := by
  induction raw generalizing out with
  | nil =>
    simp only [coerceSleep, Except.ok.injEq] at h
    subst h
    simp
  | cons r rest ih =>
    simp only [coerceSleep] at h
    cases hp : parseTimestamp r.sleepDay with
    | none =>
      rw [hp] at h
      simp at h
    | some t =>
      rw [hp] at h
      cases hrec : coerceSleep rest with
      | error e =>
        rw [hrec] at h
        simp at h
      | ok rs =>
        rw [hrec] at h
        simp only [Except.ok.injEq] at h
        subst h
        intro s hs
        rcases List.mem_cons.mp hs with rfl | htail
        · refine ⟨rfl, fun h360 => ?_⟩
          show ((r.totalMinutesAsleep : ℚ) / 60 : ℚ) = 6
          have h360' : r.totalMinutesAsleep = 360 := h360
          rw [h360']
          norm_num
        · exact ih rs hrec s htail

/-- C8 witness: the loader really derives SleepHours from 360 minutes
asleep, the theorem applies to that output row, and the derived value
is exactly 6. -/
theorem sleepHours_is_minutes_div_sixty_witness :
    coerceSleep rawSleepW = Except.ok [outSleepW] ∧
      (outSleepW.sleepHours = (outSleepW.totalMinutesAsleep : ℚ) / 60 ∧
        (outSleepW.totalMinutesAsleep = 360 → outSleepW.sleepHours = 6)) ∧
      outSleepW.sleepHours = 6 :=
  ⟨rfl,
   sleepHours_is_minutes_div_sixty rawSleepW [outSleepW] rfl outSleepW
     (List.mem_singleton.mpr rfl),
   (sleepHours_is_minutes_div_sixty rawSleepW [outSleepW] rfl outSleepW
     (List.mem_singleton.mpr rfl)).2 rfl⟩

theorem coerceActivity_error_of_bad (raw : List RawActivityRow) (r : RawActivityRow)
    (hr : r ∈ raw) (hp : parseTimestamp r.activityDate = none) :
    coerceActivity raw = .error .malformedInput := by
  induction raw with
  | nil => simp at hr
  | cons x rest ih =>
    rcases List.mem_cons.mp hr with rfl | htail
    · simp [coerceActivity, hp]
    · simp only [coerceActivity]
      cases hx : parseTimestamp x.activityDate with
      | none => rfl
      | some t => rw [ih htail]

theorem coerceSleep_error_of_bad (raw : List RawSleepRow) (r : RawSleepRow)
    (hr : r ∈ raw) (hp : parseTimestamp r.sleepDay = none) :
    coerceSleep raw = .error .malformedInput := by
  induction raw with
  | nil => simp at hr
  | cons x rest ih =>
    rcases List.mem_cons.mp hr with rfl | htail
    · simp [coerceSleep, hp]
    · simp only [coerceSleep]
      cases hx : parseTimestamp x.sleepDay with
      | none => rfl
      | some t => rw [ih htail]

theorem coerceHourly_error_of_bad {β : Type} (mk : Nat → Nat → Int → β)
    (raw : List RawHourlyRow) (r : RawHourlyRow)
    (hr : r ∈ raw) (hp : parseTimestamp r.activityHour = none) :
    coerceHourly mk raw = .error .malformedInput := by
  induction raw with
  | nil => simp at hr
  | cons x rest ih =>
    rcases List.mem_cons.mp hr with rfl | htail
    · simp [coerceHourly, hp]
    · simp only [coerceHourly]
      cases hx : parseTimestamp x.activityHour with
      | none => rfl
      | some t => rw [ih htail]

theorem coerceActivity_ok_length (raw : List RawActivityRow) (out : List ActivityRow)
    (h : coerceActivity raw = .ok out) : out.length = raw.length := by
  induction raw generalizing out with
  | nil =>
    simp only [coerceActivity, Except.ok.injEq] at h
    subst h
    rfl
  | cons x rest ih =>
    simp only [coerceActivity] at h
    cases hx : parseTimestamp x.activityDate with
    | none => rw [hx] at h; simp at h
    | some t =>
      rw [hx] at h
      cases hrec : coerceActivity rest with
      | error e => rw [hrec] at h; simp at h
      | ok rs =>
        rw [hrec] at h
        simp only [Except.ok.injEq] at h
        subst h
        simp [ih rs hrec]

theorem coerceSleep_ok_length (raw : List RawSleepRow) (out : List SleepRow)
    (h : coerceSleep raw = .ok out) : out.length = raw.length := by
  induction raw generalizing out with
  | nil =>
    simp only [coerceSleep, Except.ok.injEq] at h
    subst h
    rfl
  | cons x rest ih =>
    simp only [coerceSleep] at h
    cases hx : parseTimestamp x.sleepDay with
    | none => rw [hx] at h; simp at h
    | some t =>
      rw [hx] at h
      cases hrec : coerceSleep rest with
      | error e => rw [hrec] at h; simp at h
      | ok rs =>
        rw [hrec] at h
        simp only [Except.ok.injEq] at h
        subst h
        simp [ih rs hrec]

theorem coerceHourly_ok_length {β : Type} (mk : Nat → Nat → Int → β)
    (raw : List RawHourlyRow) (out : List β)
    (h : coerceHourly mk raw = .ok out) : out.length = raw.length := by
  induction raw generalizing out with
  | nil =>
    simp only [coerceHourly, Except.ok.injEq] at h
    subst h
    rfl
  | cons x rest ih =>
    simp only [coerceHourly] at h
    cases hx : parseTimestamp x.activityHour with
    | none => rw [hx] at h; simp at h
    | some t =>
      rw [hx] at h
      cases hrec : coerceHourly mk rest with
      | error e => rw [hrec] at h; simp at h
      | ok rs =>
        rw [hrec] at h
        simp only [Except.ok.injEq] at h
        subst h
        simp [ih rs hrec]

theorem load_data_error_cases (rawAct : List RawActivityRow)
    (rawSleep : List RawSleepRow) (rawSteps rawInt rawCal : List RawHourlyRow)
    (h : coerceActivity rawAct = .error .malformedInput ∨
         coerceSleep rawSleep = .error .malformedInput ∨
         coerceHourly HourlyCaloriesRow.mk rawCal = .error .malformedInput ∨
         coerceHourly HourlyStepsRow.mk rawSteps = .error .malformedInput ∨
         coerceHourly HourlyIntensityRow.mk rawInt = .error .malformedInput) :
    load_data rawAct rawSleep rawSteps rawInt rawCal = .error .malformedInput := by
  unfold load_data
  cases h1 : coerceActivity rawAct with
  | error e => cases e; rfl
  | ok act =>
    cases h2 : coerceSleep rawSleep with
    | error e => cases e; rfl
    | ok slp =>
      cases h3 : coerceHourly HourlyCaloriesRow.mk rawCal with
      | error e => cases e; rfl
      | ok cals =>
        cases h4 : coerceHourly HourlyStepsRow.mk rawSteps with
        | error e => cases e; rfl
        | ok steps =>
          cases h5 : coerceHourly HourlyIntensityRow.mk rawInt with
          | error e => cases e; rfl
          | ok ints =>
            exfalso
            rcases h with hb | hb | hb | hb | hb <;> simp_all

/-- C9: if any value in the five temporal columns is unparseable, the
whole load fails with `MalformedInput`; and whenever the load succeeds,
every raw row of every table is present in the normalized tables — no
row is silently dropped and no partial dataset is returned. -/
theorem load_data_malformed_is_fatal (rawAct : List RawActivityRow)
    (rawSleep : List RawSleepRow) (rawSteps rawInt rawCal : List RawHourlyRow) :
    (((rawAct.map (fun r => r.activityDate)) ++ (rawSleep.map (fun r => r.sleepDay)) ++
        (rawSteps.map (fun r => r.activityHour)) ++ (rawInt.map (fun r => r.activityHour)) ++
        (rawCal.map (fun r => r.activityHour))).any
          (fun s => (parseTimestamp s).isNone) = true →
      load_data rawAct rawSleep rawSteps rawInt rawCal = .error .malformedInput)
    ∧ (∀ t, load_data rawAct rawSleep rawSteps rawInt rawCal = .ok t →
        t.daily_activity.length = rawAct.length ∧
        t.daily_sleep.length = rawSleep.length ∧
        t.hourly_steps.length = rawSteps.length ∧
        t.hourly_intensity.length = rawInt.length ∧
        t.hourly_calories.length = rawCal.length) := by
  constructor
  · intro hany
    rw [List.any_eq_true] at hany
    obtain ⟨s, hsmem, hbad⟩ := hany
    rw [Option.isNone_iff_eq_none] at hbad
    simp only [List.mem_append] at hsmem
    apply load_data_error_cases
    rcases hsmem with (((hm | hm) | hm) | hm) | hm
    · obtain ⟨r, hrm, rfl⟩ := List.mem_map.mp hm
      exact Or.inl (coerceActivity_error_of_bad rawAct r hrm hbad)
    · obtain ⟨r, hrm, rfl⟩ := List.mem_map.mp hm
      exact Or.inr (Or.inl (coerceSleep_error_of_bad rawSleep r hrm hbad))
    · obtain ⟨r, hrm, rfl⟩ := List.mem_map.mp hm
      exact Or.inr (Or.inr (Or.inr (Or.inl
        (coerceHourly_error_of_bad HourlyStepsRow.mk rawSteps r hrm hbad))))
    · obtain ⟨r, hrm, rfl⟩ := List.mem_map.mp hm
      exact Or.inr (Or.inr (Or.inr (Or.inr
        (coerceHourly_error_of_bad HourlyIntensityRow.mk rawInt r hrm hbad))))
    · obtain ⟨r, hrm, rfl⟩ := List.mem_map.mp hm
      exact Or.inr (Or.inr (Or.inl
        (coerceHourly_error_of_bad HourlyCaloriesRow.mk rawCal r hrm hbad)))
  · intro t ht
    unfold load_data at ht
    cases h1 : coerceActivity rawAct with
    | error e => rw [h1] at ht; simp at ht
    | ok act =>
      rw [h1] at ht
      cases h2 : coerceSleep rawSleep with
      | error e => rw [h2] at ht; simp at ht
      | ok slp =>
        rw [h2] at ht
        cases h3 : coerceHourly HourlyCaloriesRow.mk rawCal with
        | error e => rw [h3] at ht; simp at ht
        | ok cals =>
          rw [h3] at ht
          cases h4 : coerceHourly HourlyStepsRow.mk rawSteps with
          | error e => rw [h4] at ht; simp at ht
          | ok steps =>
            rw [h4] at ht
            cases h5 : coerceHourly HourlyIntensityRow.mk rawInt with
            | error e => rw [h5] at ht; simp at ht
            | ok ints =>
              rw [h5] at ht
              simp only [Except.ok.injEq] at ht
              subst ht
              exact ⟨coerceActivity_ok_length rawAct act h1,
                coerceSleep_ok_length rawSleep slp h2,
                coerceHourly_ok_length HourlyStepsRow.mk rawSteps steps h4,
                coerceHourly_ok_length HourlyIntensityRow.mk rawInt ints h5,
                coerceHourly_ok_length HourlyCaloriesRow.mk rawCal cals h3⟩

/-- C9 witness: one unparseable date fails the load, and a clean load
returns every row. -/
theorem load_data_malformed_is_fatal_witness :
    (((rawActBad.map (fun r => r.activityDate)) ++
        (([] : List RawSleepRow).map (fun r => r.sleepDay)) ++
        (([] : List RawHourlyRow).map (fun r => r.activityHour)) ++
        (([] : List RawHourlyRow).map (fun r => r.activityHour)) ++
        (([] : List RawHourlyRow).map (fun r => r.activityHour))).any
          (fun s => (parseTimestamp s).isNone) = true ∧
      load_data rawActBad [] [] [] [] = .error .malformedInput) ∧
    (load_data rawActGood [] [] [] [] = .ok tGood ∧
      (tGood.daily_activity.length = rawActGood.length ∧
        tGood.daily_sleep.length = ([] : List RawSleepRow).length ∧
        tGood.hourly_steps.length = ([] : List RawHourlyRow).length ∧
        tGood.hourly_intensity.length = ([] : List RawHourlyRow).length ∧
        tGood.hourly_calories.length = ([] : List RawHourlyRow).length)) :=
  ⟨⟨by decide, (load_data_malformed_is_fatal rawActBad [] [] [] []).1 (by decide)⟩,
   ⟨rfl, (load_data_malformed_is_fatal rawActGood [] [] [] []).2 tGood rfl⟩⟩

/-- C10: the daily slice keeps a row of the selected user iff its
stored ActivityDate equals the selected date's midnight timestamp
exactly; a row whose ActivityDate falls on calendar date d but carries a
nonzero time-of-day component is never returned, while the hourly slice
(`get_user_df`) truncates ActivityHour to its date portion and so keeps
any row of day d regardless of its time of day. -/
theorem day_df_midnight_equality_vs_hourly_truncation (u d : Nat)
    (act : List ActivityRow) (r : ActivityRow) (hr : r ∈ act) (hid : r.id = u) :
    (r ∈ day_df u d act ↔ r.activityDate = midnight d)
    ∧ (dateOf r.activityDate = d → r.activityDate % minutesPerDay ≠ 0 →
        r ∉ day_df u d act)
    ∧ (∀ (hrow : HourlyStepsRow) (df : List HourlyStepsRow),
        hrow ∈ df → hrow.id = u →
          (hrow ∈ get_user_df u d df ↔ dateOf hrow.activityHour = d)) := by
  have hmem : r ∈ day_df u d act ↔ r.activityDate = midnight d := by
    simp [day_df, user_df, List.mem_filter, hr, hid]
  refine ⟨hmem, ?_, ?_⟩
  · intro hdate hmod hin
    have heq : r.activityDate = midnight d := hmem.mp hin
    apply hmod
    rw [heq]
    simp [midnight, Nat.mul_mod_left]
  · intro hrow df hdf hidr
    simp [get_user_df, List.mem_filter, hdf, hidr, HasUserHour.idOf, HasUserHour.hourOf]

/-- C10 witness: the theorem applied to the concrete tables — the daily
slice misses the row even though its calendar date is day 5, while the
hourly slice keeps its hourly twin. -/
theorem day_df_midnight_equality_vs_hourly_truncation_witness :
    (rW10 ∈ actW10 ∧ rW10.id = 1 ∧ dateOf rW10.activityDate = 5 ∧
      rW10.activityDate % minutesPerDay ≠ 0 ∧ hW10 ∈ [hW10] ∧ hW10.id = 1) ∧
    (rW10 ∉ day_df 1 5 actW10 ∧
      (hW10 ∈ get_user_df 1 5 [hW10] ↔ dateOf hW10.activityHour = 5) ∧
      dateOf hW10.activityHour = 5) := by
  have T := day_df_midnight_equality_vs_hourly_truncation 1 5 actW10 rW10
    (by decide) (by decide)
  exact ⟨⟨by decide, by decide, by decide, by decide, by decide, by decide⟩,
    ⟨T.2.1 (by decide) (by decide), T.2.2 hW10 [hW10] (by decide) (by decide),
      by decide⟩⟩

end EDA
